import Mathlib

/-!
Verification of the resilient fetch-extract-classify pipeline of the
test-scraper-app repository against its natural-language specification.

The definitions below are a shallow embedding of `src/scraper.py`
(class `LodgifyScraper`, requests fallback path), `src/app.py` (which
duplicates the same extraction methods verbatim) and
`src/json_to_csv.py`.  Library primitives that the Python code calls
(BeautifulSoup accessors, the `re` regex engine, `urllib.parse`,
the interpreter set-iteration order of `list(set(..))`, wall-clock
time) are modelled as explicit oracle inputs: the `Soup` structure
carries the results of the concrete BeautifulSoup and `re.findall`
calls that the extractor methods perform, while `Env` carries the
interpreter-level primitives.  All decision logic written in the
repository itself (filtering, strategy ordering, retry control flow,
record assembly) is translated directly from the source.
-/

namespace Scraper

/-- Python substring test `needle in hay` on strings. -/
def strContains (hay needle : String) : Bool :=
  (List.range (hay.data.length + 1)).any
    (fun i => needle.data.isPrefixOf (hay.data.drop i))

/-- Python `s.lower()` (character-wise, structurally recursive so that
concrete evaluations reduce in the kernel). -/
def strLower (s : String) : String :=
  ⟨s.data.map Char.toLower⟩

/-- Python `s.strip()`: leading and trailing whitespace removed. -/
def strTrim (s : String) : String :=
  ⟨((s.data.dropWhile Char.isWhitespace).reverse.dropWhile
      Char.isWhitespace).reverse⟩

/-- Python slice `s[:n]` by code points. -/
def strTake (s : String) (n : Nat) : String :=
  ⟨s.data.take n⟩

/-- Python `s.startswith(pre)`. -/
def strStartsWith (s pre : String) : Bool :=
  pre.data.isPrefixOf s.data

/-- Python `len(s)` in code points. -/
def strLen (s : String) : Nat :=
  s.data.length

/-- Number of decimal digits occurring in a string, modelling
`len(re.findall(r"\d", phone))` in `_extract_phone`. -/
def digitCount (s : String) : Nat :=
  s.data.countP Char.isDigit

/-- Value of a decimal digit character. -/
def digitVal (c : Char) : Nat := c.toNat - 48

/-- Natural number denoted by a list of decimal digit characters. -/
def natOfDigits (ds : List Char) : Nat :=
  ds.foldl (fun a c => 10 * a + digitVal c) 0

/-- Python `float(s)` restricted to the strings that can reach it in
`_extract_coordinates`: the regex capture class `[+-]?\d+\.?\d*`
produces an optional sign, one or more digits, an optional dot and
trailing digits; a non-participating alternation group produces the
empty string, on which `float` raises `ValueError` (modelled as
`none`). -/
def pyFloatNum (cs : List Char) : Option ℚ :=
  let ip := cs.takeWhile Char.isDigit
  let r1 := cs.dropWhile Char.isDigit
  if ip.isEmpty then none
  else
    match r1 with
    | [] => some (natOfDigits ip : ℚ)
    | '.' :: r2 =>
      let fp := r2.takeWhile Char.isDigit
      let r3 := r2.dropWhile Char.isDigit
      if r3.isEmpty then
        some ((natOfDigits ip : ℚ) + (natOfDigits fp : ℚ) / (10 ^ fp.length))
      else none
    | _ => none

/-- Python `float` on a possibly signed numeral; `none` models a raised
`ValueError`. -/
def pyFloat (s : String) : Option ℚ :=
  match s.data with
  | '+' :: cs => pyFloatNum cs
  | '-' :: cs => (pyFloatNum cs).map Neg.neg
  | cs => pyFloatNum cs

/-- Interpreter-level primitives the extraction methods call.  These are
fixed for the lifetime of a Python process: `pySetList` in particular
models the iteration order of `list(set(xs))`, which is determined by
the per-process string hash seed. -/
structure Env where
  /-- `urllib.parse.urljoin(base, href)`. -/
  urljoin : String → String → String
  /-- `urlparse(url).netloc` restricted to URLs on which `urlparse`
  succeeds.  `urlparse` itself is partial: it raises
  `ValueError("Invalid IPv6 URL")` on bracket-malformed URLs.  The
  definitions that depend on that raise thread the partial
  `netlocOpt : String → Option String` oracle instead (see
  `createErrorRecordPy` and `scrapeSubdomainPy` below); this total
  field is only used by the claims whose hypotheses already guarantee
  a URL that received HTTP responses. -/
  netloc : String → String
  /-- `list(set(xs))`: deduplication in interpreter hash order. -/
  pySetList : List String → List String
  /-- `time.strftime("%Y-%m-%d %H:%M:%S")` at record-creation time. -/
  now : String

/-- Results of the BeautifulSoup / `re` library calls performed by the
extraction methods of `LodgifyScraper` on one parsed page.  Each field
is documented with the exact call it models; the extraction logic that
consumes these values is translated from the source. -/
structure Soup where
  /-- `soup.get_text()`. -/
  text : String := ""
  /-- `str(soup)`: the serialized markup. -/
  html : String := ""
  /-- `soup.find("title")` text, when the tag exists. -/
  titleText : Option String := none
  /-- `len(soup.select(sel))` for a CSS selector `sel`. -/
  selectCount : String → Nat := fun _ => 0
  /-- `re.findall(pattern, soup.get_text().lower())` coerced by `int`,
  for the three count patterns of `_extract_count_from_text`. -/
  countNums : String → List Nat := fun _ => []
  /-- combined result of `_count_from_pagination`: `some n` when a
  pagination node matching the pattern exists and the inner
  `re.search` of `of\s*(\d+)` succeeds with value `n`. -/
  paginationCount : Option Nat := none
  /-- `href` attribute of each element of `soup.find_all("a", href=True)`,
  in document order. -/
  hrefs : List String := []
  /-- `re.findall(EMAIL_PATTERN, soup.get_text() + str(soup))` where
  EMAIL_PATTERN is the word-bounded address regex of `_extract_email`. -/
  emailMatches : List String := []
  /-- `re.findall` of the first phone pattern over `soup.get_text()`;
  with one group the matches are the group captures. -/
  phoneMatches1 : List String := []
  /-- `re.findall` of the second (groupless) phone pattern. -/
  phoneMatches2 : List String := []
  /-- `content` attribute of `meta[name=description]`, if the tag exists. -/
  metaDescription : Option String := none
  /-- `content` attribute of `meta[property=og:description]`. -/
  ogDescription : Option String := none
  /-- texts of `soup.find_all("p")` in document order. -/
  paragraphs : List String := []
  /-- `select_one(sel)` text per address selector, in selector order. -/
  addrSelTexts : List (Option String) := []
  /-- `re.findall` of the first street-suffix address pattern. -/
  addrMatches1 : List String := []
  /-- `re.findall` of the second street-suffix address pattern. -/
  addrMatches2 : List String := []
  /-- `re.findall(r"lat[itude]*[\"\s]*[:=][\"\s]*([+-]?\d+\.?\d*)", str(soup).lower())`. -/
  latMatches : List String := []
  /-- `re.findall` of the longitude pattern; its alternation
  `lng|lon[gitude]*..(group)` yields an empty capture whenever the bare
  `lng` branch matches. -/
  lngMatches : List String := []
  /-- number of `form` elements whose serialization contains
  `contact` or `inquiry`. -/
  contactFormsCount : Nat := 0
  /-- texts of the language-indicator nodes found by
  `_detect_languages`, in document order. -/
  langNodeTexts : List String := []
  /-- text of the first element matching a company selector, if any. -/
  companyText : Option String := none

/-- Mutable per-scraper state (`self` of `LodgifyScraper`): the proxy
rotation.  The extraction methods never read or write it; threading it
through `extractFields` makes that checkable. -/
structure ScraperState where
  proxies : List String := []
  currentProxyIndex : Nat := 0
  useProxies : Bool := false

/-- `_extract_title`: title text, stripped, truncated to 200 chars. -/
def extractTitle (soup : Soup) : String :=
  match soup.titleText with
  | some t => strTake (strTrim t) 200
  | none => ""

/-- Selector list of `_count_property_elements`. -/
def PROPERTY_SELECTORS : List String :=
  [".property-card", ".listing-item", ".room-card",
   "[data-property]", ".accommodation", ".unit"]

/-- `_count_property_elements`: first selector with matching elements
wins and contributes its element count; otherwise 0. -/
def countPropertyElements (soup : Soup) : Nat :=
  match PROPERTY_SELECTORS.find? (fun sel => soup.selectCount sel ≠ 0) with
  | some sel => soup.selectCount sel
  | none => 0

/-- The three count patterns of `_extract_count_from_text`, in source
order. -/
def COUNT_PATTERNS : List String :=
  ["(\\d+)\\s*(?:properties|rooms|units|accommodations)",
   "showing\\s*(\\d+)",
   "total\\s*(\\d+)"]

/-- `_extract_count_from_text`: first pattern with a nonempty match
list contributes `int(matches[0])`; otherwise 0. -/
def extractCountFromText (soup : Soup) : Nat :=
  (COUNT_PATTERNS.findSome? (fun p => (soup.countNums p).head?)).getD 0

/-- `_count_from_pagination`: the parsed `of N` total when present. -/
def countFromPagination (soup : Soup) : Nat :=
  soup.paginationCount.getD 0

/-- `_extract_property_count`: the three strategies run in fixed order;
the first one returning a positive count wins, otherwise the result is
0.  There is no further fallback. -/
def extractPropertyCount (soup : Soup) : Nat :=
  let c1 := countPropertyElements soup
  if c1 > 0 then c1
  else
    let c2 := extractCountFromText soup
    if c2 > 0 then c2
    else
      let c3 := countFromPagination soup
      if c3 > 0 then c3 else 0

/-- Booking keywords of `_has_booking_engine`. -/
def BOOKING_KEYWORDS : List String :=
  ["book now", "reserve", "availability", "check-in", "check-out"]

/-- `_has_booking_engine`: any booking keyword occurs in the lowercased
page text. -/
def hasBookingEngine (soup : Soup) : Bool :=
  BOOKING_KEYWORDS.any (fun k => strContains (strLower soup.text) k)

/-- Denylist tokens of `_extract_email`. -/
def SPAM_TOKENS : List String :=
  ["example", "test", "spam", "noreply", "donotreply"]

/-- `any(spam in email.lower() for spam in [...])`. -/
def isSpamEmail (email : String) : Bool :=
  SPAM_TOKENS.any (fun t => strContains (strLower email) t)

/-- `_extract_email`: regex matches over `get_text() + str(soup)` are
filtered against the denylist; the first surviving match is returned,
or the empty string when none survives.  There is no `mailto:` anchor
strategy. -/
def extractEmail (soup : Soup) : String :=
  let validEmails := soup.emailMatches.filter (fun e => !(isSpamEmail e))
  validEmails.headD ""

/-- `_extract_phone`: matches of the two patterns in order; the first
one containing at least 7 digits is returned stripped, else empty. -/
def extractPhone (soup : Soup) : String :=
  match (soup.phoneMatches1 ++ soup.phoneMatches2).find?
      (fun m => 7 ≤ digitCount m) with
  | some m => strTrim m
  | none => ""

/-- `_extract_coordinates`, including the exception behaviour of the
source: the latitude is assigned into the dict before the longitude is
parsed, so a `ValueError` on the longitude leaves a latitude-only
dict behind (the `except ValueError: pass` arrives too late). -/
structure Coords where
  latitude : Option ℚ := none
  longitude : Option ℚ := none
deriving DecidableEq

def extractCoordinates (soup : Soup) : Coords :=
  match soup.latMatches, soup.lngMatches with
  | la :: _, lo :: _ =>
    match pyFloat la with
    | none => {}
    | some x =>
      match pyFloat lo with
      | none => { latitude := some x }
      | some y => { latitude := some x, longitude := some y }
  | _, _ => {}

/-- `_has_contact_form`. -/
def hasContactForm (soup : Soup) : Bool :=
  soup.contactFormsCount ≠ 0

/-- Keyword list of `_extract_property_links`. -/
def LINK_KEYWORDS : List String :=
  ["property", "room", "unit", "booking", "reserve"]

/-- `_extract_property_links`: keyword-bearing anchors resolved against
the base URL, kept when the base domain occurs in the full URL, then
deduplicated by `list(set(..))` and truncated to 15. -/
def extractPropertyLinks (env : Env) (soup : Soup) (baseUrl : String) :
    List String :=
  let baseDomain := env.netloc baseUrl
  let links := soup.hrefs.filterMap (fun href =>
    if href ≠ "" &&
        LINK_KEYWORDS.any (fun k => strContains (strLower href) k) then
      let fullUrl :=
        if !(strStartsWith href "http") then env.urljoin baseUrl href else href
      if strContains fullUrl baseDomain then some fullUrl else none
    else none)
  (env.pySetList links).take 15

/-- Platform table of `_extract_social_media`. -/
def SOCIAL_PLATFORMS : List (String × List String) :=
  [("facebook", ["facebook.com", "fb.com"]),
   ("twitter", ["twitter.com", "x.com"]),
   ("instagram", ["instagram.com"]),
   ("linkedin", ["linkedin.com"]),
   ("youtube", ["youtube.com", "youtu.be"]),
   ("tiktok", ["tiktok.com"])]

/-- `_extract_social_media`: anchors scanned in document order; the
first matching href per platform is kept (insertion-ordered dict
modelled as an association list). -/
def extractSocialMedia (soup : Soup) : List (String × String) :=
  soup.hrefs.foldl (fun acc href =>
    SOCIAL_PLATFORMS.foldl (fun acc2 pd =>
      if (pd.2.any (fun d => strContains (strLower href) d)) &&
          acc2.all (fun kv => kv.1 != pd.1) then
        acc2 ++ [(pd.1, href)]
      else acc2) acc) []

/-- Paragraph fallback of `_extract_description` over the first five
paragraphs. -/
def descFromParagraphs : List String → String
  | [] => ""
  | p :: ps =>
    let t := strTrim p
    if strLen t > 50 then strTake t 500 else descFromParagraphs ps

/-- `_extract_description`: meta description, then social-preview
description, then first substantial paragraph. -/
def extractDescription (soup : Soup) : String :=
  match soup.metaDescription with
  | some c =>
    if c ≠ "" then strTake (strTrim c) 500
    else
      match soup.ogDescription with
      | some c2 =>
        if c2 ≠ "" then strTake (strTrim c2) 500
        else descFromParagraphs (soup.paragraphs.take 5)
      | none => descFromParagraphs (soup.paragraphs.take 5)
  | none =>
    match soup.ogDescription with
    | some c2 =>
      if c2 ≠ "" then strTake (strTrim c2) 500
      else descFromParagraphs (soup.paragraphs.take 5)
    | none => descFromParagraphs (soup.paragraphs.take 5)

/-- Keyword list of `_extract_amenities`. -/
def AMENITY_KEYWORDS : List String :=
  ["wifi", "parking", "pool", "gym", "kitchen", "breakfast",
   "air conditioning", "heating", "balcony", "terrace", "garden",
   "beach access", "pet friendly", "wheelchair accessible",
   "laundry", "dishwasher", "microwave", "refrigerator"]

/-- `_extract_amenities`. -/
def extractAmenities (soup : Soup) : List String :=
  AMENITY_KEYWORDS.filter (fun a => strContains (strLower soup.text) a)

/-- `_extract_address`: selector chain with a minimum-length threshold,
then the two regex fallbacks, truncation to 500 chars throughout. -/
def extractAddress (soup : Soup) : String :=
  match soup.addrSelTexts.findSome? (fun t? => t?.bind (fun t =>
      let a := strTrim t
      if strLen a > 10 then some (strTake a 500) else none)) with
  | some a => a
  | none =>
    match soup.addrMatches1.head? with
    | some m => strTake (strTrim m) 500
    | none =>
      match soup.addrMatches2.head? with
      | some m => strTake (strTrim m) 500
      | none => ""

/-- per-node language tagging of `_detect_languages` (an if/elif
chain). -/
def langOfText (s : String) : Option String :=
  let t := strLower s
  if strContains t "english" || strContains t "en" then some "English"
  else if strContains t "español" || strContains t "spanish" then some "Spanish"
  else if strContains t "français" || strContains t "french" then some "French"
  else if strContains t "deutsch" || strContains t "german" then some "German"
  else none

/-- `_detect_languages`: the first five indicator nodes are tagged and
the tag list passes through `list(set(..))`. -/
def detectLanguages (env : Env) (soup : Soup) : List String :=
  env.pySetList ((soup.langNodeTexts.take 5).filterMap langOfText)

/-- `_extract_company_info`: name of the first matching company
selector, stripped and truncated to 100 chars. -/
def extractCompanyInfo (soup : Soup) : Option String :=
  soup.companyText.map (fun t => strTake (strTrim t) 100)

/-- The ExtractedRecord portion of the success dict built by
`scrape_subdomain` (everything that is a function of the parsed page
and URL alone). -/
structure ExtractedFields where
  title : String
  property_count : Nat
  property_links : List String
  address : String
  phone : String
  email : String
  social_media : List (String × String)
  description : String
  amenities : List String
  location_coords : Coords
  contact_form : Bool
  booking_engine : Bool
  languages : List String
  company_info : Option String
deriving DecidableEq

/-- Field extraction of `scrape_subdomain` (the dict literal of lines
115-134 of `src/scraper.py` minus url/domain/status/timestamp).  It
receives the scraper state exactly as the bound methods receive
`self`; none of the extraction methods reads it. -/
def extractFields (env : Env) (_self : ScraperState) (soup : Soup)
    (url : String) : ExtractedFields :=
  { title := extractTitle soup
    property_count := extractPropertyCount soup
    property_links := extractPropertyLinks env soup url
    address := extractAddress soup
    phone := extractPhone soup
    email := extractEmail soup
    social_media := extractSocialMedia soup
    description := extractDescription soup
    amenities := extractAmenities soup
    location_coords := extractCoordinates soup
    contact_form := hasContactForm soup
    booking_engine := hasBookingEngine soup
    languages := detectLanguages env soup
    company_info := extractCompanyInfo soup }

/-- Physical outcome of one network attempt of
`_scrape_with_requests`: a 200 response with a body, a non-200 status
(whose body `requests` also delivers), or a raised request exception. -/
inductive Resp where
  | ok (body : String)
  | httpError (code : Nat) (body : String)
  | netExcept (msg : String)
deriving DecidableEq

/-- The retryable status codes of line 228 of `src/scraper.py`. -/
def RETRYABLE : List Nat := [403, 429, 500, 502, 503]

/-- What one call of `_scrape_with_requests` produced: the returned
body (if any), the number of physical attempts performed, and the
backoff delays slept between consecutive attempts. -/
structure FetchOutcome where
  result : Option String
  attempts : Nat
  delays : List ℚ
deriving DecidableEq

/-- `delay = (2 ** attempt) + random.uniform(1, 3)`; the jitter draw is
an oracle indexed by the attempt number. -/
def backoffDelay (jitter : Nat → ℚ) (attempt : Nat) : ℚ :=
  2 ^ attempt + jitter attempt

/-- The retry loop body of `_scrape_with_requests`: `attempt` is the
loop counter, the second argument the number of remaining iterations
(`max_retries - attempt`).  A 200 returns the body; a retryable status
or an exception continues while `attempt < max_retries - 1` and
otherwise returns `None`; any other status returns `None` at once. -/
def scrapeGo (respond : Nat → Resp) (jitter : Nat → ℚ) (attempt : Nat) :
    Nat → FetchOutcome
  | 0 => { result := none, attempts := 0, delays := [] }
  | remaining + 1 =>
    match respond attempt with
    | .ok body => { result := some body, attempts := 1, delays := [] }
    | .httpError code _ =>
      if code ∈ RETRYABLE then
        if remaining = 0 then
          { result := none, attempts := 1, delays := [] }
        else
          let rest := scrapeGo respond jitter (attempt + 1) remaining
          { result := rest.result, attempts := rest.attempts + 1,
            delays := backoffDelay jitter attempt :: rest.delays }
      else { result := none, attempts := 1, delays := [] }
    | .netExcept _ =>
      if remaining = 0 then
        { result := none, attempts := 1, delays := [] }
      else
        let rest := scrapeGo respond jitter (attempt + 1) remaining
        { result := rest.result, attempts := rest.attempts + 1,
          delays := backoffDelay jitter attempt :: rest.delays }

/-- `_scrape_with_requests(url, max_retries=3)` with the per-URL
response oracle. -/
def scrapeWithRequests (respond : Nat → Resp) (jitter : Nat → ℚ)
    (maxRetries : Nat := 3) : FetchOutcome :=
  scrapeGo respond jitter 0 maxRetries

/-- One output record of `scrape_subdomain`: the success dict carries
the extracted fields, the error dict of `_create_error_record` carries
an error string instead; both carry url, domain, a status string and a
timestamp. -/
structure Record where
  url : String
  domain : String
  fields : Option ExtractedFields
  status : String
  error : Option String
  scraped_at : String
deriving DecidableEq

/-- `_create_error_record`, under the assumption that `urlparse`
succeeds on `url`.  The source function calls `urlparse(url).netloc`
outside any `try`, so on a bracket-malformed URL it raises `ValueError`
instead of returning a dict; `createErrorRecordPy` below models that
partiality.  This total restriction serves the claims whose
hypotheses concern URLs that received HTTP responses. -/
def createErrorRecord (env : Env) (url errorMsg : String) : Record :=
  { url := url, domain := env.netloc url, fields := none,
    status := "failed", error := some errorMsg, scraped_at := env.now }

/-- `scrape_subdomain(url)` on the requests path: fetch with retries;
a missing body yields the failed record; a raised parse exception
(BeautifulSoup and the extraction block run inside one `try`) yields a
failed record with the exception text; otherwise the success record is
assembled.  `net` is the per-URL per-attempt network oracle and
`parse` the BeautifulSoup oracle. -/
def scrapeSubdomain (env : Env) (self : ScraperState)
    (net : String → Nat → Resp) (jitter : Nat → ℚ)
    (parse : String → Except String Soup) (url : String) : Record :=
  match (scrapeWithRequests (net url) jitter 3).result with
  | none => createErrorRecord env url "All scraping methods failed"
  | some html =>
    match parse html with
    | .error e => createErrorRecord env url ("Parsing error: " ++ e)
    | .ok soup =>
      { url := url, domain := env.netloc url,
        fields := some (extractFields env self soup url),
        status := "success", error := none, scraped_at := env.now }

/-- Python truthiness of a record dict in `if result:` of
`scrape_multiple`: both the success dict and the error dict are
nonempty dicts (each has at least the `url` key), hence truthy. -/
def recordTruthy (_r : Record) : Bool := true

/-- `scrape_multiple(urls, max_workers)`: every URL is submitted to the
pool and each completed future contributes its record to the result
list when truthy.  `completed` is the list of URLs in completion order
(`as_completed` yields the units in an arbitrary order); `maxWorkers`
only sizes the pool and does not affect the collected records. -/
def scrapeMultiple (env : Env) (self : ScraperState)
    (net : String → Nat → Resp) (jitter : Nat → ℚ)
    (parse : String → Except String Soup)
    (completed : List String) (_maxWorkers : Nat) : List Record :=
  (completed.map (scrapeSubdomain env self net jitter parse)).filter
    recordTruthy

/-- Customer-vs-platform-internal label of §3 of the spec. -/
inductive Belonging where
  | customer
  | platform_internal
deriving DecidableEq

/-- Modelled from the spec: the Site Classifier of §4.3 has no
implementation under `src/` — only its consumer exists
(`json_to_csv.process_records` reads the `belonging` field, lines
301-311).  The definition follows the spec wording: a deterministic
top-down decision procedure whose first matching rule wins:
signature-list match, then contact-channel with substance, then
no-signal default, then keyword/size tiebreak, defaulting to
platform-internal on ambiguity. -/
def classify (sigs bookingKeywords : List String) (lenThreshold : Nat)
    (title domain email phone : String) (inventoryCount : Nat)
    (markup : String) : Belonging :=
  if title ∈ sigs ∨ domain ∈ sigs then .platform_internal
  else if (email ≠ "" ∨ phone ≠ "") ∧
      (0 < inventoryCount ∨ lenThreshold < strLen markup) then .customer
  else if (email = "" ∧ phone = "") ∧
      (inventoryCount = 0 ∧ strLen markup ≤ lenThreshold) then
    .platform_internal
  else if bookingKeywords.any (fun k => strContains markup k) &&
      decide (lenThreshold < strLen markup) then .customer
  else .platform_internal

/-- The record filter of `json_to_csv.process_records` (lines 306-309):
only records with status `success` and belonging `customer` are
converted. -/
def processKeeps (status : String) (belonging : Option Belonging) : Bool :=
  status == "success" && belonging == some Belonging.customer

/-!
### Refined model: the partiality of `urlparse`

CPython `urlparse` raises `ValueError("Invalid IPv6 URL")` on
bracket-malformed URLs such as `https://[`.  In the source this raise
escapes: `_create_error_record` (scraper.py line 256) calls
`urlparse(url).netloc` outside any `try`, it is reached from
`scrape_subdomain` line 110 after both fetch helpers swallowed their
own exceptions, and in `scrape_multiple` the uncaught
`future.result()` (line 520) re-raises it in the orchestrator.  The
definitions below refine the ones above with a partial
`netlocOpt : String → Option String` oracle (`none` models the raise)
and an `Except`-valued result whose `error` constructor models an
exception escaping the call.
-/

/-- `_create_error_record` with the partiality of `urlparse` made
explicit: when `urlparse` raises on `url`, the `ValueError` escapes
the function (there is no `try` around the call). -/
def createErrorRecordPy (env : Env) (netlocOpt : String → Option String)
    (url errorMsg : String) : Except String Record :=
  match netlocOpt url with
  | none => .error "ValueError: Invalid IPv6 URL"
  | some d =>
    .ok { url := url, domain := d, fields := none, status := "failed",
          error := some errorMsg, scraped_at := env.now }

/-- `scrape_subdomain(url)` with the partiality of `urlparse` made
explicit.  On the success path, `urlparse(url).netloc` runs inside the
`try` (line 117); if it raises there, the `except` clause calls
`_create_error_record`, whose own `urlparse` call raises again,
uncaught — hence that branch also ends in `createErrorRecordPy`. -/
def scrapeSubdomainPy (env : Env) (netlocOpt : String → Option String)
    (self : ScraperState) (net : String → Nat → Resp) (jitter : Nat → ℚ)
    (parse : String → Except String Soup) (url : String) :
    Except String Record :=
  match (scrapeWithRequests (net url) jitter 3).result with
  | none => createErrorRecordPy env netlocOpt url "All scraping methods failed"
  | some html =>
    match parse html with
    | .error e =>
      createErrorRecordPy env netlocOpt url ("Parsing error: " ++ e)
    | .ok soup =>
      match netlocOpt url with
      | none =>
        createErrorRecordPy env netlocOpt url
          "Parsing error: Invalid IPv6 URL"
      | some d =>
        .ok { url := url, domain := d,
              fields := some (extractFields env self soup url),
              status := "success", error := none, scraped_at := env.now }

/-- The `as_completed` collection loop of `scrape_multiple`:
`future.result()` is called for each completed unit in completion
order; the first unit whose call re-raises aborts the loop and the
exception escapes `scrape_multiple`, discarding the records collected
so far. -/
def collectResults (f : String → Except String Record) :
    List String → Except String (List Record)
  | [] => .ok []
  | u :: us =>
    match f u with
    | .error e => .error e
    | .ok r =>
      match collectResults f us with
      | .error e => .error e
      | .ok rs => .ok (r :: rs)

/-- `scrape_multiple(urls, max_workers)` on the refined model: the
records of the completed units, filtered by truthiness, unless some
unit lets an exception escape — then the batch crashes with it. -/
def scrapeMultiplePy (env : Env) (netlocOpt : String → Option String)
    (self : ScraperState) (net : String → Nat → Resp) (jitter : Nat → ℚ)
    (parse : String → Except String Soup)
    (completed : List String) (_maxWorkers : Nat) :
    Except String (List Record) :=
  match collectResults
      (scrapeSubdomainPy env netlocOpt self net jitter parse) completed with
  | .error e => .error e
  | .ok rs => .ok (rs.filter recordTruthy)

/-- The never-throws contract on the refined model: the call returned
a record (no exception escaped) and the record is the success shape or
the failure shape. -/
def EncodesOutcome : Except String Record → Prop
  | .error _ => False
  | .ok r =>
    (r.status = "success" ∧ r.error = none ∧ r.fields.isSome = true) ∨
    (r.status = "failed" ∧ r.error.isSome = true ∧ r.fields = none)

/-- Number of records a batch run returned, `none` when the batch
crashed. -/
def batchCount : Except String (List Record) → Option Nat
  | .error _ => none
  | .ok rs => some rs.length

/-- The URLs of the records a batch run returned, in collection order,
`none` when the batch crashed. -/
def batchUrls : Except String (List Record) → Option (List String)
  | .error _ => none
  | .ok rs => some (rs.map Record.url)

/-! ### Concrete fixtures used by witnesses and counterexamples -/

/-- A concrete interpreter environment for test evaluations. -/
def env0 : Env :=
  { urljoin := fun _ h => h, netloc := fun _ => "",
    pySetList := fun xs => xs, now := "2025-01-01 00:00:00" }

/-- Fresh scraper state. -/
def state0 : ScraperState := {}

/-- BeautifulSoup oracle that parses everything to an empty page. -/
def parse0 : String → Except String Soup := fun _ => .ok {}

/-- A fixed jitter draw. -/
def jitter0 : Nat → ℚ := fun _ => 2

/-- Network oracle whose every attempt raises a connection error. -/
def net0 : String → Nat → Resp := fun _ _ => .netExcept "connection refused"

/-- Network oracle whose every attempt answers HTTP 429. -/
def net429 : String → Nat → Resp :=
  fun _ _ => .httpError 429 "Too Many Requests"

/-- Network oracle whose every attempt answers the payment-required
status 402 with a nonempty gated body. -/
def net402 : String → Nat → Resp :=
  fun _ _ => .httpError 402 "<html>gated content</html>"

/-- Page whose free text carries one address and whose markup carries a
`mailto:` anchor for another: `get_text()` precedes `str(soup)` in the
scanned string, so the regex matches are, in order, the free-text
address (from the text), the same address again (from the serialized
paragraph) and the anchor address. -/
def c3soup : Soup :=
  { text := "Reach other@x.com Email us",
    html := "<p>Reach other@x.com</p><a href=\"mailto:foo@bar.com\">Email us</a>",
    emailMatches := ["other@x.com", "other@x.com", "foo@bar.com"] }

/-- Page whose markup only has a mailto anchor address: the single
regex match comes from the serialized anchor. -/
def c3soupMailtoOnly : Soup :=
  { text := "Email us",
    html := "<a href=\"mailto:foo@bar.com\">Email us</a>",
    emailMatches := ["foo@bar.com"] }

/-- Page with a booking keyword in its text but no listing-card
elements, no count phrases and no pagination. -/
def c4soup : Soup :=
  { text := "Welcome! Book now and check availability." }

/-- Page whose only regex-matched address is denylisted. -/
def c9soup : Soup :=
  { text := "For inquiries write to noreply@domain.com",
    emailMatches := ["noreply@domain.com"] }

/-- Page whose serialized markup contains `latitude = 12.5` and a bare
`lng` token: the latitude pattern captures `12.5` while the longitude
pattern matches through its bare `lng` alternative, whose capture group
does not participate, so `re.findall` reports the empty string. -/
def c10soup : Soup :=
  { html := "var latitude = 12.5; map.setCenter(lat, lng);",
    latMatches := ["12.5"], lngMatches := [""] }

/-- Page with parsable candidates for both coordinates. -/
def c10soupBoth : Soup :=
  { html := "\"latitude\": 41.2, \"longitude\": 2.1",
    latMatches := ["41.2"], lngMatches := ["2.1"] }

/-- Signature list for the spec-modelled classifier tests. -/
def sigs0 : List String :=
  ["404 Not Found", "Page Not Found", "Help Center", "Lodgify"]

/-- `urlparse(url).netloc` on the concrete fixture URLs: it raises
(`none`) on the bracket-malformed `https://[`, and on a plain
`https://host/...` URL it returns the host part. -/
def netloc0 : String → Option String := fun u =>
  if u = "https://[" then none
  else if strStartsWith u "https://" then
    some ⟨(u.data.drop 8).takeWhile (fun c => c != '/')⟩
  else some ""

/-! ### Helper lemmas -/

/-- Every record produced by `scrapeSubdomain` carries its input URL. -/
theorem scrapeSubdomain_url (env : Env) (self : ScraperState)
    (net : String → Nat → Resp) (jitter : Nat → ℚ)
    (parse : String → Except String Soup) (url : String) :
    (scrapeSubdomain env self net jitter parse url).url = url := by
  unfold scrapeSubdomain
  cases (scrapeWithRequests (net url) jitter 3).result with
  | none => rfl
  | some html =>
    cases hp : parse html with
    | error e => simp [hp, createErrorRecord]
    | ok soup => simp [hp]

/-- The truthiness filter of `scrape_multiple` drops nothing: record
dicts are always nonempty. -/
theorem filter_recordTruthy (l : List Record) :
    l.filter recordTruthy = l :=
  List.filter_eq_self.mpr (fun _ _ => rfl)

/-- When `urlparse` succeeds on the URL, `scrapeSubdomainPy` returns a
record (no exception escapes) carrying its input URL. -/
theorem scrapeSubdomainPy_ok (env : Env)
    (netlocOpt : String → Option String) (self : ScraperState)
    (net : String → Nat → Resp) (jitter : Nat → ℚ)
    (parse : String → Except String Soup) (u d : String)
    (h : netlocOpt u = some d) :
    ∃ r, scrapeSubdomainPy env netlocOpt self net jitter parse u =
        .ok r ∧ r.url = u := by
  unfold scrapeSubdomainPy
  cases (scrapeWithRequests (net u) jitter 3).result with
  | none => simp [createErrorRecordPy, h]
  | some html =>
    cases hp : parse html with
    | error e => simp [hp, createErrorRecordPy, h]
    | ok soup => simp [hp, h]

/-- When `urlparse` succeeds on every URL of the worklist, the
collection loop returns one record per URL, in order. -/
theorem scrapeBatch_ok (env : Env) (netlocOpt : String → Option String)
    (self : ScraperState) (net : String → Nat → Resp) (jitter : Nat → ℚ)
    (parse : String → Except String Soup) :
    ∀ l : List String, l.all (fun u => (netlocOpt u).isSome) = true →
      ∃ rs, collectResults
          (scrapeSubdomainPy env netlocOpt self net jitter parse) l =
          .ok rs ∧ rs.map Record.url = l := by
  intro l
  induction l with
  | nil => intro _; exact ⟨[], rfl, rfl⟩
  | cons u us ih =>
    intro hall
    rw [List.all_cons, Bool.and_eq_true] at hall
    obtain ⟨hu, hus⟩ := hall
    obtain ⟨d, hd⟩ := Option.isSome_iff_exists.mp hu
    obtain ⟨r, hr, hru⟩ :=
      scrapeSubdomainPy_ok env netlocOpt self net jitter parse u d hd
    obtain ⟨rs, hrs, hmap⟩ := ih hus
    refine ⟨r :: rs, ?_, ?_⟩
    · unfold collectResults
      rw [hr, hrs]
    · simp [hmap, hru]

/-! ### Claim theorems -/

/-- Counterexample to C1 as stated: on the input list containing only
the bracket-malformed URL `https://[`, both fetch helpers swallow
their exceptions and return `None`, but `_create_error_record` then
calls `urlparse(url).netloc` outside any `try`, the raised
`ValueError("Invalid IPv6 URL")` escapes `scrape_subdomain`, and the
uncaught `future.result()` re-raises it inside `scrape_multiple`: the
batch crashes instead of returning `len(urls) = 1` records. -/
theorem c1_malformed_url_crashes_batch :
    scrapeMultiplePy env0 netloc0 state0 net0 jitter0 parse0
      ["https://["] 5 = .error "ValueError: Invalid IPv6 URL" := by
  rfl

/-- Claim C1 as amended: for every list of input URLs on each of which
`urlparse` succeeds, and every worker count `k ≥ 1`, the batch run
returns exactly `len(urls)` output records — one record per input URL
in completion order, no drops and no duplicates — regardless of which
fetch attempts fail; a list containing a bracket-malformed URL instead
crashes the batch with the `ValueError` escaping from
`_create_error_record`. -/
theorem c1_parsable_urls_preserve_record_count (env : Env)
    (netlocOpt : String → Option String) (self : ScraperState)
    (net : String → Nat → Resp) (jitter : Nat → ℚ)
    (parse : String → Except String Soup)
    (urls completed : List String) (k : Nat) (_hk : 1 ≤ k)
    (hcomp : List.Perm completed urls)
    (hok : urls.all (fun u => (netlocOpt u).isSome) = true) :
    batchCount (scrapeMultiplePy env netlocOpt self net jitter parse
      completed k) = some urls.length ∧
    batchUrls (scrapeMultiplePy env netlocOpt self net jitter parse
      completed k) = some completed := by
  have hokc : completed.all (fun u => (netlocOpt u).isSome) = true := by
    rw [List.all_eq_true] at hok ⊢
    intro u hu
    exact hok u (hcomp.mem_iff.mp hu)
  obtain ⟨rs, hrs, hmap⟩ :=
    scrapeBatch_ok env netlocOpt self net jitter parse completed hokc
  have hlen : rs.length = urls.length := by
    have hl := congrArg List.length hmap
    rw [List.length_map] at hl
    rw [hl, hcomp.length_eq]
  have hrun :
      scrapeMultiplePy env netlocOpt self net jitter parse completed k =
        .ok rs := by
    unfold scrapeMultiplePy
    rw [hrs]
    show Except.ok (rs.filter recordTruthy) = Except.ok rs
    rw [filter_recordTruthy]
  constructor
  · rw [hrun]
    show some rs.length = some urls.length
    rw [hlen]
  · rw [hrun]
    show some (rs.map Record.url) = some completed
    rw [hmap]

/-- Witness for the amended C1 at a concrete two-URL batch of
parsable URLs whose completion order is the reverse of the input order
and whose every fetch fails. -/
theorem c1_parsable_urls_preserve_record_count_witness :
    1 ≤ 5 ∧
    List.Perm ["https://b.lodgify.com", "https://a.lodgify.com"]
      ["https://a.lodgify.com", "https://b.lodgify.com"] ∧
    (["https://a.lodgify.com", "https://b.lodgify.com"] :
      List String).all (fun u => (netloc0 u).isSome) = true ∧
    (batchCount (scrapeMultiplePy env0 netloc0 state0 net0 jitter0
        parse0 ["https://b.lodgify.com", "https://a.lodgify.com"] 5) =
      some (["https://a.lodgify.com", "https://b.lodgify.com"] :
        List String).length ∧
     batchUrls (scrapeMultiplePy env0 netloc0 state0 net0 jitter0
        parse0 ["https://b.lodgify.com", "https://a.lodgify.com"] 5) =
      some ["https://b.lodgify.com", "https://a.lodgify.com"]) :=
  ⟨by decide, List.Perm.swap _ _ _, by decide,
   c1_parsable_urls_preserve_record_count env0 netloc0 state0 net0
     jitter0 parse0
     ["https://a.lodgify.com", "https://b.lodgify.com"]
     ["https://b.lodgify.com", "https://a.lodgify.com"] 5 (by decide)
     (List.Perm.swap _ _ _) (by decide)⟩

/-- Counterexample to C6 as stated: on the bracket-malformed URL
`https://[`, `scrape_subdomain` raises `ValueError` out of the call
instead of returning a record — the fetch helpers swallow their own
exceptions, but the `urlparse(url).netloc` inside
`_create_error_record` runs outside any `try`, so this one failure
mode (malformed URL) is not encoded in a returned record. -/
theorem c6_malformed_url_raises :
    scrapeSubdomainPy env0 netloc0 state0 net0 jitter0 parse0
      "https://[" = .error "ValueError: Invalid IPv6 URL" := by
  rfl

/-- Claim C6 as amended: for every URL on which `urlparse` succeeds,
`scrape_subdomain` returns a record and never raises, for every
behaviour of the network and the parser: network errors, timeouts,
blocks and parse failures are all encoded as the failure record, and
the only other outcome is the success record.  A URL on which
`urlparse` raises is the exception: the `ValueError` escapes the call
via `_create_error_record`. -/
theorem c6_parsable_url_never_raises (env : Env)
    (netlocOpt : String → Option String) (self : ScraperState)
    (net : String → Nat → Resp) (jitter : Nat → ℚ)
    (parse : String → Except String Soup) (url d : String)
    (h : netlocOpt url = some d) :
    EncodesOutcome
      (scrapeSubdomainPy env netlocOpt self net jitter parse url) := by
  unfold scrapeSubdomainPy
  cases (scrapeWithRequests (net url) jitter 3).result with
  | none =>
    simp only [createErrorRecordPy, h]
    right
    exact ⟨rfl, rfl, rfl⟩
  | some html =>
    cases hp : parse html with
    | error e =>
      simp only [hp, createErrorRecordPy, h]
      right
      exact ⟨rfl, rfl, rfl⟩
    | ok soup =>
      simp only [hp, h]
      left
      exact ⟨rfl, rfl, rfl⟩

/-- Witness for the amended C6 at a parsable URL whose every fetch
attempt fails with a network error. -/
theorem c6_parsable_url_never_raises_witness :
    netloc0 "https://a.lodgify.com" = some "a.lodgify.com" ∧
    EncodesOutcome (scrapeSubdomainPy env0 netloc0 state0 net0 jitter0
      parse0 "https://a.lodgify.com") :=
  ⟨by decide,
   c6_parsable_url_never_raises env0 netloc0 state0 net0 jitter0 parse0
     "https://a.lodgify.com" "a.lodgify.com" (by decide)⟩

/-- Claim C8: field extraction is a pure function of the parsed page
and the URL: it neither reads nor writes the mutable scraper state
(the proxy rotation that fetching mutates), so two extraction runs in
the same interpreter process — same `Env`, which fixes the
`list(set(..))` iteration order — produce identical `ExtractedFields`
values, including the order of the inventory-link and language
lists. -/
theorem c8_extraction_state_independent (env : Env)
    (s1 s2 : ScraperState) (soup : Soup) (url : String) :
    extractFields env s1 soup url = extractFields env s2 soup url := rfl

/-- Claim C9: when every regex-scanned email on a page contains a
denylisted placeholder token, `_extract_email` returns the empty
string — a denylisted address is never returned, even as the only
candidate. -/
theorem c9_all_spam_yields_empty_email (soup : Soup)
    (h : soup.emailMatches.all isSpamEmail = true) :
    extractEmail soup = "" := by
  unfold extractEmail
  have hnil : soup.emailMatches.filter (fun e => !(isSpamEmail e)) = [] := by
    rw [List.filter_eq_nil_iff]
    intro a ha
    have := (List.all_eq_true.mp h) a ha
    simp [this]
  rw [hnil]
  rfl

/-- Witness for C9 at a page whose only address is `noreply@domain.com`. -/
theorem c9_all_spam_yields_empty_email_witness :
    c9soup.emailMatches.all isSpamEmail = true ∧ extractEmail c9soup = "" :=
  ⟨by decide, c9_all_spam_yields_empty_email c9soup (by decide)⟩

/-- Counterexample to C10 as stated: on markup containing
`latitude = 12.5` and a bare `lng` token, the latitude pattern captures
`12.5` while the longitude pattern matches via its bare `lng`
alternative with a non-participating group, so `float` is fed the empty
string and raises after the latitude was already stored: the returned
map holds a latitude without a longitude, refuting the all-or-nothing
invariant. -/
theorem c10_partial_latitude_possible :
    (extractCoordinates c10soup).latitude.isSome = true ∧
    (extractCoordinates c10soup).longitude = none := by
  constructor
  · rfl
  · rfl

/-- Claim C10 as amended: the extracted geocoordinate map is empty, a
full pair, or — when both regexes matched and the first latitude
candidate parses while the first longitude candidate does not — a
latitude alone; a longitude is never present without a latitude. -/
theorem c10_longitude_implies_latitude (soup : Soup) :
    (extractCoordinates soup).longitude = none ∨
    ((extractCoordinates soup).latitude.isSome = true ∧
     (extractCoordinates soup).longitude.isSome = true) := by
  unfold extractCoordinates
  rcases hl : soup.latMatches with _ | ⟨la, lrest⟩
  · left; rfl
  · rcases hg : soup.lngMatches with _ | ⟨lo, grest⟩
    · left; rfl
    · cases hx : pyFloat la with
      | none => left; simp [hx]
      | some x =>
        cases hy : pyFloat lo with
        | none => left; simp [hx, hy]
        | some y => right; simp [hx, hy]

/-- Counterexample to C2 as stated: when every attempt answers HTTP
429, the loop does terminate after exactly the 3 configured attempts,
but the terminal record carries status `failed` (the generic error
record of `_create_error_record`), not the status `blocked` the claim
asserts: no `blocked` status value exists in the code. -/
theorem c2_always_429_status_not_blocked :
    (scrapeWithRequests (net429 "https://x.lodgify.com") jitter0 3).attempts
      = 3 ∧
    (scrapeWithRequests (net429 "https://x.lodgify.com") jitter0
      3).result = none ∧
    (scrapeSubdomain env0 state0 net429 jitter0 parse0
      "https://x.lodgify.com").status = "failed" ∧
    (scrapeSubdomain env0 state0 net429 jitter0 parse0
      "https://x.lodgify.com").status ≠ "blocked" := by
  refine ⟨rfl, rfl, rfl, ?_⟩
  decide

/-- Claim C2 as amended: for every URL whose three physical attempts
all answer HTTP 429, `_scrape_with_requests` terminates after exactly
`max_retries = 3` attempts, sleeping the exponential backoff
`2 ^ attempt + jitter` between consecutive attempts, and the terminal
record carries status `failed` with the error text
`All scraping methods failed` — rate-limit exhaustion is distinguished
from other failures only by message text, not by a `blocked` status. -/
theorem c2_retry_exhaustion_failed_status (env : Env)
    (self : ScraperState) (net : String → Nat → Resp) (jitter : Nat → ℚ)
    (parse : String → Except String Soup) (url : String)
    (b0 b1 b2 : String)
    (h0 : net url 0 = Resp.httpError 429 b0)
    (h1 : net url 1 = Resp.httpError 429 b1)
    (h2 : net url 2 = Resp.httpError 429 b2) :
    (scrapeWithRequests (net url) jitter 3).attempts = 3 ∧
    (scrapeWithRequests (net url) jitter 3).result = none ∧
    (scrapeWithRequests (net url) jitter 3).delays =
      [2 ^ 0 + jitter 0, 2 ^ 1 + jitter 1] ∧
    (scrapeSubdomain env self net jitter parse url).status = "failed" ∧
    (scrapeSubdomain env self net jitter parse url).error =
      some "All scraping methods failed" := by
  have hout : scrapeWithRequests (net url) jitter 3 =
      { result := none, attempts := 3,
        delays := [2 ^ 0 + jitter 0, 2 ^ 1 + jitter 1] } := by
    show scrapeGo (net url) jitter 0 3 = _
    rw [show (3 : Nat) = 2 + 1 from rfl]
    unfold scrapeGo
    rw [h0]
    simp only [RETRYABLE, backoffDelay]
    norm_num
    rw [show (2 : Nat) = 1 + 1 from rfl]
    unfold scrapeGo
    rw [h1]
    simp only [RETRYABLE, backoffDelay]
    norm_num
    unfold scrapeGo
    rw [h2]
    simp only [RETRYABLE]
    norm_num
  refine ⟨by rw [hout], by rw [hout], by rw [hout], ?_, ?_⟩
  · unfold scrapeSubdomain
    rw [hout]
    rfl
  · unfold scrapeSubdomain
    rw [hout]
    rfl

/-- Witness for the amended C2 at a concrete always-429 oracle. -/
theorem c2_retry_exhaustion_failed_status_witness :
    net429 "https://y.lodgify.com" 0 =
      Resp.httpError 429 "Too Many Requests" ∧
    net429 "https://y.lodgify.com" 1 =
      Resp.httpError 429 "Too Many Requests" ∧
    net429 "https://y.lodgify.com" 2 =
      Resp.httpError 429 "Too Many Requests" ∧
    ((scrapeWithRequests (net429 "https://y.lodgify.com") jitter0
        3).attempts = 3 ∧
     (scrapeWithRequests (net429 "https://y.lodgify.com") jitter0
        3).result = none ∧
     (scrapeWithRequests (net429 "https://y.lodgify.com") jitter0
        3).delays = [2 ^ 0 + jitter0 0, 2 ^ 1 + jitter0 1] ∧
     (scrapeSubdomain env0 state0 net429 jitter0 parse0
        "https://y.lodgify.com").status = "failed" ∧
     (scrapeSubdomain env0 state0 net429 jitter0 parse0
        "https://y.lodgify.com").error =
       some "All scraping methods failed") :=
  ⟨rfl, rfl, rfl,
   c2_retry_exhaustion_failed_status env0 state0 net429 jitter0 parse0
     "https://y.lodgify.com" "Too Many Requests" "Too Many Requests"
     "Too Many Requests" rfl rfl rfl⟩

/-- Counterexample to C3 as stated: on a status-200 page whose free
text holds `other@x.com` and whose markup holds an explicit
`mailto:foo@bar.com` anchor, `_extract_email` returns `other@x.com`:
the method has no mailto/tel anchor strategy at all — it regex-scans
`get_text() + str(soup)`, and the free-text address appears first in
that string, so it wins over the anchor address. -/
theorem c3_free_text_email_beats_mailto :
    extractEmail c3soup = "other@x.com" ∧
    extractEmail c3soup ≠ "foo@bar.com" := by
  refine ⟨rfl, ?_⟩
  decide

/-- Claim C3 as amended: there is no anchor-priority strategy; the
returned email is the first regex match over `get_text() + str(soup)`
that survives the denylist.  In particular a page whose
`mailto:foo@bar.com` anchor address is preceded only by denylisted
matches yields `foo@bar.com` exactly, but any earlier non-denylisted
free-text address wins over the anchor. -/
theorem c3_first_valid_regex_match_wins (soup : Soup)
    (pre post : List String)
    (hm : soup.emailMatches = pre ++ "foo@bar.com" :: post)
    (hpre : pre.all isSpamEmail = true) :
    extractEmail soup = "foo@bar.com" := by
  unfold extractEmail
  rw [hm, List.filter_append]
  have hnil : pre.filter (fun e => !(isSpamEmail e)) = [] := by
    rw [List.filter_eq_nil_iff]
    intro a ha
    have := (List.all_eq_true.mp hpre) a ha
    simp [this]
  rw [hnil]
  have hok : isSpamEmail "foo@bar.com" = false := by decide
  simp [List.filter_cons, hok]

/-- Witness for the amended C3 at a page whose only match is the
mailto anchor address. -/
theorem c3_first_valid_regex_match_wins_witness :
    c3soupMailtoOnly.emailMatches = [] ++ "foo@bar.com" :: [] ∧
    ([] : List String).all isSpamEmail = true ∧
    extractEmail c3soupMailtoOnly = "foo@bar.com" :=
  ⟨rfl, rfl,
   c3_first_valid_regex_match_wins c3soupMailtoOnly [] [] rfl rfl⟩

/-- Counterexample to C4 as stated: a page whose text contains the
booking keywords `book now` and `availability` but in which no
inventory strategy yields a positive count gets inventory count 0, not
the claimed 1: `_extract_property_count` has no booking-affordance
fallback (`_has_booking_engine` only feeds the separate
`booking_engine` flag). -/
theorem c4_booking_without_inventory_yields_zero :
    countPropertyElements c4soup = 0 ∧
    extractCountFromText c4soup = 0 ∧
    countFromPagination c4soup = 0 ∧
    hasBookingEngine c4soup = true ∧
    extractPropertyCount c4soup = 0 ∧
    extractPropertyCount c4soup ≠ 1 := by
  refine ⟨rfl, rfl, rfl, by decide, rfl, ?_⟩
  decide

/-- Claim C4 as amended: when no inventory-count strategy (structural
selectors, count-phrase regex, pagination) yields a positive count,
the extracted inventory count is 0 even when a booking-availability
keyword is present; the booking affordance is reported only through
the separate boolean `booking_engine` field. -/
theorem c4_no_positive_strategy_count_zero (soup : Soup)
    (h1 : countPropertyElements soup = 0)
    (h2 : extractCountFromText soup = 0)
    (h3 : countFromPagination soup = 0)
    (hb : hasBookingEngine soup = true) :
    extractPropertyCount soup = 0 ∧ hasBookingEngine soup = true := by
  refine ⟨?_, hb⟩
  unfold extractPropertyCount
  simp [h1, h2, h3]

/-- Witness for the amended C4 at the booking-keyword page. -/
theorem c4_no_positive_strategy_count_zero_witness :
    countPropertyElements c4soup = 0 ∧
    extractCountFromText c4soup = 0 ∧
    countFromPagination c4soup = 0 ∧
    hasBookingEngine c4soup = true ∧
    (extractPropertyCount c4soup = 0 ∧ hasBookingEngine c4soup = true) :=
  ⟨rfl, rfl, rfl, by decide,
   c4_no_positive_strategy_count_zero c4soup rfl rfl rfl (by decide)⟩

/-- Claim C5: in the spec-modelled classifier, a title (or domain)
that exactly matches a platform-internal signature classifies the
record as platform-internal regardless of every other input — in
particular even when the email and phone fields are present — because
the signature rule is the first rule of the top-down decision
procedure. -/
theorem c5_signature_rule_wins (sigs bookingKeywords : List String)
    (lenThreshold : Nat) (title domain email phone : String)
    (inventoryCount : Nat) (markup : String)
    (h : title ∈ sigs ∨ domain ∈ sigs) :
    classify sigs bookingKeywords lenThreshold title domain email phone
      inventoryCount markup = Belonging.platform_internal := by
  unfold classify
  rw [if_pos h]

/-- Witness for C5: an error-page title classifies as platform-internal
despite a contact email, a phone and a positive inventory count. -/
theorem c5_signature_rule_wins_witness :
    ("404 Not Found" ∈ sigs0 ∨ "x.lodgify.com" ∈ sigs0) ∧
    classify sigs0 BOOKING_KEYWORDS 1000 "404 Not Found" "x.lodgify.com"
      "owner@site.com" "+1 555 123 4567" 5
      "<html><body>book now</body></html>" =
      Belonging.platform_internal :=
  ⟨Or.inl (by decide),
   c5_signature_rule_wins sigs0 BOOKING_KEYWORDS 1000 "404 Not Found"
     "x.lodgify.com" "owner@site.com" "+1 555 123 4567" 5
     "<html><body>book now</body></html>" (Or.inl (by decide))⟩

/-- Counterexample to C7 as stated: an attempt answering the
payment-required status 402 with a nonempty gated body falls into the
default non-retryable branch of `_scrape_with_requests`: the method
returns `None` after a single attempt, the body is discarded, and
`scrape_subdomain` emits the ordinary failed record — there is no
partial-success outcome and no partial marker anywhere in the code. -/
theorem c7_payment_required_is_failure :
    (scrapeWithRequests (net402 "https://z.lodgify.com") jitter0
      3).result = none ∧
    (scrapeWithRequests (net402 "https://z.lodgify.com") jitter0
      3).attempts = 1 ∧
    (scrapeSubdomain env0 state0 net402 jitter0 parse0
      "https://z.lodgify.com").status = "failed" ∧
    (scrapeSubdomain env0 state0 net402 jitter0 parse0
      "https://z.lodgify.com").status ≠ "partial_success" ∧
    (scrapeSubdomain env0 state0 net402 jitter0 parse0
      "https://z.lodgify.com").fields = none := by
  refine ⟨rfl, rfl, rfl, ?_, rfl⟩
  decide

/-- Claim C7 as amended: a fetch attempt answering the designated
payment-required status 402 is treated as a non-retryable generic
failure, not a third outcome variant: the fetch returns no markup
after that single attempt and the record for the URL is the ordinary
failed record (status `failed`, no extracted fields); the only status
values the pipeline produces are `success` and `failed`. -/
theorem c7_payment_required_single_attempt_failed (env : Env)
    (self : ScraperState) (net : String → Nat → Resp) (jitter : Nat → ℚ)
    (parse : String → Except String Soup) (url : String) (b : String)
    (h0 : net url 0 = Resp.httpError 402 b) :
    (scrapeWithRequests (net url) jitter 3).result = none ∧
    (scrapeWithRequests (net url) jitter 3).attempts = 1 ∧
    (scrapeSubdomain env self net jitter parse url).status = "failed" ∧
    (scrapeSubdomain env self net jitter parse url).fields = none := by
  have hout : scrapeWithRequests (net url) jitter 3 =
      { result := none, attempts := 1, delays := [] } := by
    show scrapeGo (net url) jitter 0 3 = _
    rw [show (3 : Nat) = 2 + 1 from rfl]
    unfold scrapeGo
    rw [h0]
    simp [RETRYABLE]
  refine ⟨by rw [hout], by rw [hout], ?_, ?_⟩
  · unfold scrapeSubdomain
    rw [hout]
    rfl
  · unfold scrapeSubdomain
    rw [hout]
    rfl

/-- Witness for the amended C7 at a concrete 402 oracle. -/
theorem c7_payment_required_single_attempt_failed_witness :
    net402 "https://w.lodgify.com" 0 =
      Resp.httpError 402 "<html>gated content</html>" ∧
    ((scrapeWithRequests (net402 "https://w.lodgify.com") jitter0
        3).result = none ∧
     (scrapeWithRequests (net402 "https://w.lodgify.com") jitter0
        3).attempts = 1 ∧
     (scrapeSubdomain env0 state0 net402 jitter0 parse0
        "https://w.lodgify.com").status = "failed" ∧
     (scrapeSubdomain env0 state0 net402 jitter0 parse0
        "https://w.lodgify.com").fields = none) :=
  ⟨rfl,
   c7_payment_required_single_attempt_failed env0 state0 net402 jitter0
     parse0 "https://w.lodgify.com" "<html>gated content</html>" rfl⟩

end Scraper
